import Mathlib

/-!
Verification of the toydb query engine core against its specification.

The definitions below are shallow embeddings of the C++ sources:
machine integers (int64_t loop counters, uint8_t bytes) are modelled as
`Nat`/`Int` with explicit `% 256` where uint8_t truncation occurs, raw
byte arrays as functions `Nat → Nat`, and fallible code as `Option`/`Except`.
-/

namespace ToyDB

/-! ## common/types.hpp -/

/-- `enum class CompareOp` from common/types.hpp. -/
inductive CompareOp where
  | EQUAL | NOT_EQUAL | GREATER | LESS | GREATER_EQUAL | LESS_EQUAL | AND | OR | NOT
deriving DecidableEq, Repr

/-- `DataType::Type` from common/types.hpp (a closed tagged union of scalar kinds). -/
inductive DataType where
  | NULL_CONST | INT32 | INT64 | DOUBLE | BOOL | STRING
deriving DecidableEq, Repr

/-- `DataType::isIntegral` from common/types.hpp. -/
def DataType.isIntegral : DataType → Bool
  | .INT32 => true
  | .INT64 => true
  | .BOOL => true
  | _ => false

/-- `TableId` from common/types.hpp; `operator==` compares `id_` only. -/
structure TableId where
  id : Nat
  name : String
deriving DecidableEq, Repr

/-- `ColumnId` from common/types.hpp; `operator==` and `ColumnIdHash` use `id_` only,
so model code compares `ColumnId`s through `sameId`. -/
structure ColumnId where
  id : Nat
  name : String
  tableId : TableId := ⟨0, ""⟩
deriving DecidableEq, Repr

/-- `ColumnId::operator==`: equality uses the numeric id only. -/
def ColumnId.sameId (a b : ColumnId) : Bool := a.id == b.id

/-! ## engine/predicate_result.hpp -/

/-- `enum class PredicateValue` (three-valued logic). -/
inductive PredicateValue where
  | FALSE | TRUE | NULL_VALUE
deriving DecidableEq, Repr

/-- `BitmaskResult`: packed two-bits-per-row result vector. The backing
`std::vector<uint8_t> bits_` (zero-initialised to `(size+3)/4` bytes) is modelled
as a total byte function `Nat → Nat`; every byte read or written by the class
lies below `(size+3)/4`, so the model is observation-equivalent. -/
structure BitmaskResult where
  bits : Nat → Nat
  size : Nat

/-- `static constexpr uint8_t TRUE_MASK = 0x01`. -/
def TRUE_MASK : Nat := 1

/-- `static constexpr uint8_t NULL_MASK = 0x02`. -/
def NULL_MASK : Nat := 2

/-- `BitmaskResult::BitmaskResult(int64_t size)`: bytes zero-initialised. -/
def BitmaskResult.ofSize (n : Nat) : BitmaskResult := ⟨fun _ => 0, n⟩

/-- `BitmaskResult::setBit`: `bits_[idx] |= mask << off` or `bits_[idx] &= ~(mask << off)`;
the store into `uint8_t` truncates mod 256. -/
def BitmaskResult.setBit (r : BitmaskResult) (index mask : Nat) (value : Bool) : BitmaskResult :=
  let byteIdx := index / 4
  let bitOffset := (index % 4) * 2
  let newByte :=
    if value then (r.bits byteIdx ||| (mask <<< bitOffset)) % 256
    else (r.bits byteIdx &&& (255 ^^^ (mask <<< bitOffset))) % 256
  { r with bits := Function.update r.bits byteIdx newByte }

/-- `BitmaskResult::getBit`: `(bits_[idx] & (mask << off)) != 0`. -/
def BitmaskResult.getBit (r : BitmaskResult) (index mask : Nat) : Bool :=
  decide ((r.bits (index / 4) &&& (mask <<< ((index % 4) * 2))) ≠ 0)

/-- `BitmaskResult::setTrue`. -/
def BitmaskResult.setTrue (r : BitmaskResult) (index : Nat) : BitmaskResult :=
  (r.setBit index TRUE_MASK true).setBit index NULL_MASK false

/-- `BitmaskResult::setFalse`. -/
def BitmaskResult.setFalse (r : BitmaskResult) (index : Nat) : BitmaskResult :=
  (r.setBit index TRUE_MASK false).setBit index NULL_MASK false

/-- `BitmaskResult::setNull`. -/
def BitmaskResult.setNull (r : BitmaskResult) (index : Nat) : BitmaskResult :=
  (r.setBit index TRUE_MASK false).setBit index NULL_MASK true

/-- `BitmaskResult::get`. -/
def BitmaskResult.get (r : BitmaskResult) (index : Nat) : PredicateValue :=
  if r.getBit index NULL_MASK then .NULL_VALUE
  else if r.getBit index TRUE_MASK then .TRUE else .FALSE

/-- `BitmaskResult::set`. -/
def BitmaskResult.set (r : BitmaskResult) (index : Nat) (v : PredicateValue) : BitmaskResult :=
  match v with
  | .TRUE => r.setTrue index
  | .FALSE => r.setFalse index
  | .NULL_VALUE => r.setNull index

/-- The branch structure of `BitmaskResult::combineAnd`'s per-row update. -/
def and3 (l r : PredicateValue) : PredicateValue :=
  if l = .FALSE ∨ r = .FALSE then .FALSE
  else if l = .NULL_VALUE ∨ r = .NULL_VALUE then .NULL_VALUE
  else .TRUE

/-- The branch structure of `BitmaskResult::combineOr`'s per-row update. -/
def or3 (l r : PredicateValue) : PredicateValue :=
  if l = .TRUE ∨ r = .TRUE then .TRUE
  else if l = .NULL_VALUE ∨ r = .NULL_VALUE then .NULL_VALUE
  else .FALSE

/-- `BitmaskResult::combineAnd`: in-place loop over `i < size_ && i < other.size_`,
reading the current (partially updated) vector and `other`, then dispatching to
`setFalse`/`setNull`/`setTrue` (captured by `set _ (and3 _ _)`). -/
def BitmaskResult.combineAnd (r other : BitmaskResult) : BitmaskResult :=
  (List.range (min r.size other.size)).foldl
    (fun acc i => acc.set i (and3 (acc.get i) (other.get i))) r

/-- `BitmaskResult::combineOr`: same loop with the three-valued OR dispatch. -/
def BitmaskResult.combineOr (r other : BitmaskResult) : BitmaskResult :=
  (List.range (min r.size other.size)).foldl
    (fun acc i => acc.set i (or3 (acc.get i) (other.get i))) r

/-- Build a `BitmaskResult` from a list of values via repeated `set` (used by witnesses). -/
def BitmaskResult.ofList (vs : List PredicateValue) : BitmaskResult :=
  (List.range vs.length).foldl
    (fun acc i => acc.set i (vs.getD i .FALSE)) (BitmaskResult.ofSize vs.length)

end ToyDB

namespace ToyDB

/-! ### Bit-level lemmas for the packed two-bits-per-row representation -/

theorem testBit_mod256 (x q : Nat) (hq : q < 8) :
    Nat.testBit (x % 256) q = Nat.testBit x q := by
  have h : (256 : Nat) = 2 ^ 8 := by norm_num
  rw [h, Nat.testBit_mod_two_pow]
  simp [hq]

theorem testBit_one_shl (off q : Nat) :
    Nat.testBit (1 <<< off) q = decide (off = q) := by
  rw [Nat.shiftLeft_eq, one_mul]
  exact Nat.testBit_two_pow

theorem testBit_two_shl (off q : Nat) :
    Nat.testBit (2 <<< off) q = decide (off + 1 = q) := by
  rw [Nat.shiftLeft_eq]
  have h : (2 : Nat) * 2 ^ off = 2 ^ (off + 1) := by rw [pow_succ]; ring
  rw [h]
  exact Nat.testBit_two_pow

theorem and_two_pow_ne_zero (b p : Nat) :
    decide ((b &&& 2 ^ p) ≠ 0) = Nat.testBit b p := by
  rw [Nat.and_two_pow]
  cases h : Nat.testBit b p <;> simp [h, Nat.pow_eq_zero]

theorem getBit_true_eq (r : BitmaskResult) (i : Nat) :
    r.getBit i TRUE_MASK = Nat.testBit (r.bits (i / 4)) ((i % 4) * 2) := by
  unfold BitmaskResult.getBit TRUE_MASK
  have h : (1 : Nat) <<< ((i % 4) * 2) = 2 ^ ((i % 4) * 2) := by
    rw [Nat.shiftLeft_eq, one_mul]
  rw [h, and_two_pow_ne_zero]

theorem getBit_null_eq (r : BitmaskResult) (i : Nat) :
    r.getBit i NULL_MASK = Nat.testBit (r.bits (i / 4)) ((i % 4) * 2 + 1) := by
  unfold BitmaskResult.getBit NULL_MASK
  have h : (2 : Nat) <<< ((i % 4) * 2) = 2 ^ ((i % 4) * 2 + 1) := by
    rw [Nat.shiftLeft_eq, pow_succ]; ring
  rw [h, and_two_pow_ne_zero]

theorem testBit_setBit (r : BitmaskResult) (i mask : Nat) (v : Bool) (byteJ q : Nat)
    (hq : q < 8) :
    Nat.testBit ((r.setBit i mask v).bits byteJ) q =
      if byteJ = i / 4 ∧ Nat.testBit (mask <<< ((i % 4) * 2)) q then v
      else Nat.testBit (r.bits byteJ) q := by
  unfold BitmaskResult.setBit
  by_cases hb : byteJ = i / 4
  · subst hb
    simp only [Function.update_same, true_and]
    cases v
    · simp only [Bool.false_eq_true, if_false]
      rw [testBit_mod256 _ _ hq, Nat.testBit_and, Nat.testBit_xor]
      have h255 : Nat.testBit 255 q = true := by
        rw [show (255 : Nat) = 2 ^ 8 - 1 from by norm_num, Nat.testBit_two_pow_sub_one]
        simpa using hq
      rw [h255]
      cases hm : Nat.testBit (mask <<< (i % 4 * 2)) q <;> simp [hm, hq]
    · simp only [if_true]
      rw [testBit_mod256 _ _ hq, Nat.testBit_or]
      cases hm : Nat.testBit (mask <<< (i % 4 * 2)) q <;> simp [hm]
  · simp only [Function.update_noteq hb, hb, false_and, if_false]

/-- After `set i v`, the TRUE bit of entry `i` is `v = TRUE`, the NULL bit is
`v = NULL_VALUE`, and every other bit of the byte array is unchanged. -/
theorem testBit_bits_set (r : BitmaskResult) (i : Nat) (v : PredicateValue)
    (byteJ q : Nat) (hq : q < 8) :
    Nat.testBit ((r.set i v).bits byteJ) q =
      if byteJ = i / 4 ∧ q = (i % 4) * 2 then decide (v = .TRUE)
      else if byteJ = i / 4 ∧ q = (i % 4) * 2 + 1 then decide (v = .NULL_VALUE)
      else Nat.testBit (r.bits byteJ) q := by
  cases v <;>
    simp only [BitmaskResult.set, BitmaskResult.setTrue, BitmaskResult.setFalse,
      BitmaskResult.setNull, TRUE_MASK, NULL_MASK] <;>
    rw [testBit_setBit _ _ _ _ _ _ hq, testBit_setBit _ _ _ _ _ _ hq] <;>
    simp only [testBit_one_shl, testBit_two_shl] <;>
    split_ifs <;> simp_all

end ToyDB

namespace ToyDB

theorem get_set_self (r : BitmaskResult) (i : Nat) (v : PredicateValue) :
    (r.set i v).get i = v := by
  have h1 : (i % 4) * 2 < 8 := by omega
  have h2 : (i % 4) * 2 + 1 < 8 := by omega
  unfold BitmaskResult.get
  rw [getBit_null_eq, getBit_true_eq,
    testBit_bits_set _ _ _ _ _ h2, testBit_bits_set _ _ _ _ _ h1]
  cases v <;> simp

theorem get_set_ne (r : BitmaskResult) (i j : Nat) (v : PredicateValue) (h : j ≠ i) :
    (r.set i v).get j = r.get j := by
  have h1 : (j % 4) * 2 < 8 := by omega
  have h2 : (j % 4) * 2 + 1 < 8 := by omega
  unfold BitmaskResult.get
  rw [getBit_null_eq, getBit_true_eq, getBit_null_eq, getBit_true_eq,
    testBit_bits_set _ _ _ _ _ h2, testBit_bits_set _ _ _ _ _ h1]
  have c1 : ¬(j / 4 = i / 4 ∧ (j % 4) * 2 = (i % 4) * 2) := by omega
  have c2 : ¬(j / 4 = i / 4 ∧ (j % 4) * 2 = (i % 4) * 2 + 1) := by omega
  have c3 : ¬(j / 4 = i / 4 ∧ (j % 4) * 2 + 1 = (i % 4) * 2) := by omega
  have c4 : ¬(j / 4 = i / 4 ∧ (j % 4) * 2 + 1 = (i % 4) * 2 + 1) := by omega
  have c5 : ¬(j / 4 = i / 4 ∧ j % 4 = i % 4) := by omega
  simp [c1, c2, c3, c4, c5]

theorem get_foldl_combine (f : PredicateValue → PredicateValue → PredicateValue)
    (other : BitmaskResult) :
    ∀ (k : Nat) (r : BitmaskResult) (j : Nat),
      ((List.range k).foldl (fun acc i => acc.set i (f (acc.get i) (other.get i))) r).get j
        = if j < k then f (r.get j) (other.get j) else r.get j := by
  intro k
  induction k with
  | zero => intro r j; simp
  | succ k ih =>
    intro r j
    rw [List.range_succ, List.foldl_append]
    simp only [List.foldl_cons, List.foldl_nil]
    by_cases hj : j = k
    · subst hj
      rw [get_set_self, ih]
      simp [Nat.lt_irrefl, Nat.lt_succ_self]
    · rw [get_set_ne _ _ _ _ hj, ih]
      by_cases hlt : j < k
      · simp [hlt, Nat.lt_succ_of_lt hlt]
      · have hge : ¬ j < k + 1 := by omega
        simp [hlt, hge]

end ToyDB

namespace ToyDB

/-- C9: after `set(i, v)` on a `BitmaskResult` of size `n` with `i < n`, `get(i)`
returns exactly `v`, and `get(j)` is unchanged for every other index `j < n`:
the two-bits-per-entry packing neither loses nor leaks information across
neighbouring entries. -/
theorem C9_set_get_roundtrip (r : BitmaskResult) (i : Nat) (v : PredicateValue)
    (hi : i < r.size) :
    (r.set i v).get i = v ∧
      ∀ j, j < r.size → j ≠ i → (r.set i v).get j = r.get j :=
  ⟨get_set_self r i v, fun j _ hj => get_set_ne r i j v hj⟩

theorem C9_set_get_roundtrip_witness :
    ((BitmaskResult.ofList [.FALSE, .TRUE, .NULL_VALUE]).set 1 .NULL_VALUE).get 1
        = .NULL_VALUE ∧
      ((BitmaskResult.ofList [.FALSE, .TRUE, .NULL_VALUE]).set 1 .NULL_VALUE).get 2
        = (BitmaskResult.ofList [.FALSE, .TRUE, .NULL_VALUE]).get 2 := by
  have h := C9_set_get_roundtrip (BitmaskResult.ofList [.FALSE, .TRUE, .NULL_VALUE])
    1 .NULL_VALUE (by decide)
  exact ⟨h.1, h.2 2 (by decide) (by decide)⟩

/-- C4: on equal-length result vectors, `combineAnd`/`combineOr` compute the
entrywise three-valued AND/OR (FALSE dominant for AND, TRUE dominant for OR,
NULL propagating otherwise), and these operations are commutative and
associative over `{TRUE, FALSE, NULL}`. -/
theorem C4_combine_and_or_3vl :
    (∀ a b : BitmaskResult, a.size = b.size →
      ∀ i, i < a.size → (a.combineAnd b).get i = and3 (a.get i) (b.get i)) ∧
    (∀ a b : BitmaskResult, a.size = b.size →
      ∀ i, i < a.size → (a.combineOr b).get i = or3 (a.get i) (b.get i)) ∧
    (∀ x y, and3 x y = and3 y x) ∧
    (∀ x y z, and3 (and3 x y) z = and3 x (and3 y z)) ∧
    (∀ x y, or3 x y = or3 y x) ∧
    (∀ x y z, or3 (or3 x y) z = or3 x (or3 y z)) := by
  refine ⟨?_, ?_, ?_, ?_, ?_, ?_⟩
  · intro a b h i hi
    unfold BitmaskResult.combineAnd
    rw [get_foldl_combine]
    have hmin : i < min a.size b.size := by omega
    simp [hmin]
  · intro a b h i hi
    unfold BitmaskResult.combineOr
    rw [get_foldl_combine]
    have hmin : i < min a.size b.size := by omega
    simp [hmin]
  · intro x y; cases x <;> cases y <;> rfl
  · intro x y z; cases x <;> cases y <;> cases z <;> rfl
  · intro x y; cases x <;> cases y <;> rfl
  · intro x y z; cases x <;> cases y <;> cases z <;> rfl

theorem C4_combine_and_or_3vl_witness :
    ((BitmaskResult.ofList [.TRUE, .NULL_VALUE]).combineAnd
        (BitmaskResult.ofList [.NULL_VALUE, .FALSE])).get 0 = .NULL_VALUE ∧
      ((BitmaskResult.ofList [.TRUE, .NULL_VALUE]).combineOr
        (BitmaskResult.ofList [.NULL_VALUE, .FALSE])).get 0 = .TRUE := by
  have h1 := C4_combine_and_or_3vl.1 (BitmaskResult.ofList [.TRUE, .NULL_VALUE])
    (BitmaskResult.ofList [.NULL_VALUE, .FALSE]) (by decide) 0 (by decide)
  have h2 := C4_combine_and_or_3vl.2.1 (BitmaskResult.ofList [.TRUE, .NULL_VALUE])
    (BitmaskResult.ofList [.NULL_VALUE, .FALSE]) (by decide) 0 (by decide)
  exact ⟨h1.trans (by decide), h2.trans (by decide)⟩

end ToyDB

namespace ToyDB

/-! ## engine/predicate_expr.hpp -/

/-- The value members of `ConstantExpr` (the `int64_t/double/bool` union plus
`std::string`); each C++ constructor pairs the declared `DataType` with the
matching member, and the default constructor leaves the union uninitialised.
Finite IEEE doubles are order- and equality-faithfully embedded as rationals. -/
inductive ConstVal where
  | intV (v : Int)
  | doubleV (v : ℚ)
  | boolV (v : Bool)
  | stringV (v : String)
  | uninit
deriving DecidableEq, Repr

/-- The expression-object hierarchy of engine/predicate_expr.hpp:
`ColumnRefExpr` (with its runtime `columnIndex_` field, `-1` until assigned),
`ConstantExpr`, `CompareExpr`, `LogicalExpr`. -/
inductive EExpr where
  | columnRef (columnId : ColumnId) (columnIndex : Int)
  | constant (ty : DataType) (val : ConstVal)
  | compare (op : CompareOp) (ty : DataType) (l r : EExpr)
  | logical (op : CompareOp) (l r : EExpr)
deriving DecidableEq, Repr

/-- The typed data region of a `ColumnBuffer` as read by `CompareExpr::extractValue`
(`static_cast<T*>(col.data)` guarded by a check of `col.type_`). -/
inductive ColData where
  | i32 (xs : List Int)
  | i64 (xs : List Int)
  | f64 (xs : List ℚ)
  | boolD (xs : List Bool)
  | strD (xs : List String)
deriving DecidableEq, Repr

/-- The `ColumnBuffer` fields read by the predicate evaluator: `type_`, `data`,
`nullBitmap` (raw packed bits, bit value 1 = valid, modelled per-row; `none`
models a null pointer), `count`. -/
structure EColumn where
  type : DataType
  data : ColData
  nullBitmap : Option (Nat → Bool)
  count : Nat

/-- `col.nullBitmap && (col.nullBitmap[i/8] & (1 << i%8)) == 0`: the row is null
iff a bitmap is attached and its bit is clear. -/
def EColumn.isNullAt (c : EColumn) (i : Nat) : Bool :=
  match c.nullBitmap with
  | none => false
  | some f => !(f i)

/-- The `RowVectorBuffer` fields read by the predicate evaluator. -/
structure EBuffer where
  columns : List EColumn
  rowCount : Nat

/-- Outcome of `CompareExpr::extractValue`: `ok v` for `return true` with value
`v`, `nullv` for `return false` with `isNull = true` (actual NULL or a type
mismatch), `fail` for an assertion failure / `tdb_unreachable` abort. -/
inductive ExtractR (α : Type) where
  | ok (v : α)
  | nullv
  | fail
deriving DecidableEq, Repr

def ExtractR.toOption : ExtractR α → Option α
  | .ok v => some v
  | _ => none

/-- `CompareExpr::extractValue<int64_t>`. -/
def extractValueInt (e : EExpr) (buf : EBuffer) (rowIndex : Nat) : ExtractR Int :=
  match e with
  | .columnRef _ colIdx =>
    if 0 ≤ colIdx then
      match buf.columns.get? colIdx.toNat with
      | none => .fail
      | some col =>
        if col.isNullAt rowIndex then .nullv
        else if col.type = .INT64 then
          match col.data with
          | .i64 xs =>
            match xs.get? rowIndex with
            | some v => .ok v
            | none => .fail
          | _ => .fail
        else .nullv
    else .fail
  | .constant ty v =>
    if ty = .NULL_CONST then .nullv
    else if ty = .INT64 then
      match v with
      | .intV n => .ok n
      | _ => .fail
    else .nullv
  | _ => .fail

/-- `CompareExpr::extractValue<double>`. -/
def extractValueDouble (e : EExpr) (buf : EBuffer) (rowIndex : Nat) : ExtractR ℚ :=
  match e with
  | .columnRef _ colIdx =>
    if 0 ≤ colIdx then
      match buf.columns.get? colIdx.toNat with
      | none => .fail
      | some col =>
        if col.isNullAt rowIndex then .nullv
        else if col.type = .DOUBLE then
          match col.data with
          | .f64 xs =>
            match xs.get? rowIndex with
            | some v => .ok v
            | none => .fail
          | _ => .fail
        else .nullv
    else .fail
  | .constant ty v =>
    if ty = .NULL_CONST then .nullv
    else if ty = .DOUBLE then
      match v with
      | .doubleV q => .ok q
      | _ => .fail
    else .nullv
  | _ => .fail

def pvOfBool (b : Bool) : PredicateValue := if b then .TRUE else .FALSE

/-- `CompareExpr::compareValues<T>`: the six comparison operators return
TRUE/FALSE; any other operator falls into the `default` branch (NULL). -/
def compareValues {α : Type} [LinearOrder α] (op : CompareOp) (l r : α)
    (leftNull rightNull : Bool) : PredicateValue :=
  if leftNull || rightNull then .NULL_VALUE
  else
    match op with
    | .EQUAL => pvOfBool (decide (l = r))
    | .NOT_EQUAL => pvOfBool (decide (l ≠ r))
    | .GREATER => pvOfBool (decide (l > r))
    | .LESS => pvOfBool (decide (l < r))
    | .GREATER_EQUAL => pvOfBool (decide (l ≥ r))
    | .LESS_EQUAL => pvOfBool (decide (l ≤ r))
    | _ => .NULL_VALUE

/-- `CompareExpr::evaluateComparison`: only the INT64 and DOUBLE branches extract
and compare; every other declared `operand_type` falls through to the final
`return PredicateValue::NULL_VALUE`. `none` models an aborted assertion. -/
def evaluateComparison (op : CompareOp) (ty : DataType) (l r : EExpr)
    (buf : EBuffer) (rowIndex : Nat) : Option PredicateValue :=
  if ty = .INT64 then
    match extractValueInt l buf rowIndex, extractValueInt r buf rowIndex with
    | .fail, _ => none
    | _, .fail => none
    | .ok a, .ok b => some (compareValues op a b false false)
    | _, _ => some .NULL_VALUE
  else if ty = .DOUBLE then
    match extractValueDouble l buf rowIndex, extractValueDouble r buf rowIndex with
    | .fail, _ => none
    | _, .fail => none
    | .ok a, .ok b => some (compareValues op a b false false)
    | _, _ => some .NULL_VALUE
  else some .NULL_VALUE

/-- `evaluateRow` across the expression hierarchy: `ColumnRefExpr` yields
NULL/TRUE from the null bit, `ConstantExpr` yields NULL iff its type is
NULL_CONST, `CompareExpr` delegates to `evaluateComparison`, and `LogicalExpr`
applies the three-valued AND/OR tables (returning FALSE for any other op). -/
def evaluateRow : EExpr → EBuffer → Nat → Option PredicateValue
  | .columnRef _ colIdx, buf, i =>
    if 0 ≤ colIdx then
      match buf.columns.get? colIdx.toNat with
      | none => none
      | some col => if col.isNullAt i then some .NULL_VALUE else some .TRUE
    else none
  | .constant ty _, _, _ =>
    if ty = .NULL_CONST then some .NULL_VALUE else some .TRUE
  | .compare op ty l r, buf, i => evaluateComparison op ty l r buf i
  | .logical op l r, buf, i => do
    let lv ← evaluateRow l buf i
    let rv ← evaluateRow r buf i
    some (if op = .AND then and3 lv rv else if op = .OR then or3 lv rv else .FALSE)

/-- `PredicateExpr::initializeIndexMap` across the hierarchy, as state threading:
input tree and counter, output tree, the node's `columnIndexMap_`, and the
counter after the call. `ColumnRefExpr::initializeIndexMap` is a no-op
(`(void)nextIndex;`), `ConstantExpr` clears its map, and
`CompareExpr`/`LogicalExpr` recurse then merge the children's maps
(right entries inserted only when the key is absent). -/
def mergeIndexMaps (lm rm : List (ColumnId × Int)) : List (ColumnId × Int) :=
  lm ++ rm.filter (fun p => !(lm.any (fun q => q.1.sameId p.1)))

def initializeIndexMap : EExpr → Int → EExpr × List (ColumnId × Int) × Int
  | .columnRef cid idx, n => (.columnRef cid idx, [], n)
  | .constant ty v, n => (.constant ty v, [], n)
  | .compare op ty l r, n =>
    let res1 := initializeIndexMap l n
    let res2 := initializeIndexMap r res1.2.2
    (.compare op ty res1.1 res2.1, mergeIndexMaps res1.2.1 res2.2.1, res2.2.2)
  | .logical op l r, n =>
    let res1 := initializeIndexMap l n
    let res2 := initializeIndexMap r res1.2.2
    (.logical op res1.1 res2.1, mergeIndexMaps res1.2.1 res2.2.1, res2.2.2)

end ToyDB

namespace ToyDB

/-- The proposition that `op` is one of the six comparison operators. -/
def isCmpOp (op : CompareOp) : Prop :=
  op = .EQUAL ∨ op = .NOT_EQUAL ∨ op = .GREATER ∨ op = .LESS ∨
    op = .GREATER_EQUAL ∨ op = .LESS_EQUAL

/-- Specification-level boolean outcome of a comparison operator on two values. -/
def cmpHolds {α : Type} [LinearOrder α] (op : CompareOp) (a b : α) : Bool :=
  match op with
  | .EQUAL => decide (a = b)
  | .NOT_EQUAL => decide (a ≠ b)
  | .GREATER => decide (a > b)
  | .LESS => decide (a < b)
  | .GREATER_EQUAL => decide (a ≥ b)
  | .LESS_EQUAL => decide (a ≤ b)
  | _ => false

/-- C2 (counterexample): a `Compare` node whose declared `operand_type` is INT32
applied to two non-null INT32 constants `1` evaluates to NULL, not TRUE: the
comparison code only implements INT64 and DOUBLE. -/
theorem C2_compare_int32_counterexample :
    evaluateRow
      (.compare .EQUAL .INT32 (.constant .INT32 (.intV 1)) (.constant .INT32 (.intV 1)))
      ⟨[], 1⟩ 0 = some .NULL_VALUE := by
  rfl

/-- C2 (amended): `CompareExpr::evaluateRow` implements the NULL-propagating
comparison semantics only for `operand_type` INT64 and DOUBLE; for INT32, BOOL
and STRING it returns NULL regardless of the operands. For INT64/DOUBLE, when
both operands extract to values it returns the TRUE/FALSE comparison outcome,
and it returns NULL when either operand is NULL (or fails to supply the
declared type) while neither extraction aborts. -/
theorem C2_compare_row_semantics :
    (∀ (op : CompareOp) (ty : DataType) (l r : EExpr) (buf : EBuffer) (i : Nat),
      ty = .INT32 ∨ ty = .BOOL ∨ ty = .STRING →
      evaluateRow (.compare op ty l r) buf i = some .NULL_VALUE) ∧
    (∀ (op : CompareOp) (l r : EExpr) (buf : EBuffer) (i : Nat) (a b : Int),
      isCmpOp op →
      extractValueInt l buf i = .ok a → extractValueInt r buf i = .ok b →
      evaluateRow (.compare op .INT64 l r) buf i = some (pvOfBool (cmpHolds op a b))) ∧
    (∀ (op : CompareOp) (l r : EExpr) (buf : EBuffer) (i : Nat),
      (extractValueInt l buf i = .nullv ∧ extractValueInt r buf i ≠ .fail) ∨
        (extractValueInt l buf i ≠ .fail ∧ extractValueInt r buf i = .nullv) →
      evaluateRow (.compare op .INT64 l r) buf i = some .NULL_VALUE) ∧
    (∀ (op : CompareOp) (l r : EExpr) (buf : EBuffer) (i : Nat) (a b : ℚ),
      isCmpOp op →
      extractValueDouble l buf i = .ok a → extractValueDouble r buf i = .ok b →
      evaluateRow (.compare op .DOUBLE l r) buf i = some (pvOfBool (cmpHolds op a b))) ∧
    (∀ (op : CompareOp) (l r : EExpr) (buf : EBuffer) (i : Nat),
      (extractValueDouble l buf i = .nullv ∧ extractValueDouble r buf i ≠ .fail) ∨
        (extractValueDouble l buf i ≠ .fail ∧ extractValueDouble r buf i = .nullv) →
      evaluateRow (.compare op .DOUBLE l r) buf i = some .NULL_VALUE) := by
  refine ⟨?_, ?_, ?_, ?_, ?_⟩
  · intro op ty l r buf i hty
    rcases hty with h | h | h <;> subst h <;> simp [evaluateRow, evaluateComparison]
  · intro op l r buf i a b hop hl hr
    simp only [evaluateRow, evaluateComparison, if_pos rfl, hl, hr]
    rcases hop with h | h | h | h | h | h <;> subst h <;>
      simp [compareValues, cmpHolds]
  · intro op l r buf i h
    simp only [evaluateRow, evaluateComparison, if_pos rfl]
    rcases h with ⟨hl, hr⟩ | ⟨hl, hr⟩
    · rw [hl]
      cases hrr : extractValueInt r buf i <;> simp_all
    · rw [hr]
      cases hll : extractValueInt l buf i <;> simp_all
  · intro op l r buf i a b hop hl hr
    simp only [evaluateRow, evaluateComparison, hl, hr]
    rcases hop with h | h | h | h | h | h <;> subst h <;>
      simp [compareValues, cmpHolds]
  · intro op l r buf i h
    simp only [evaluateRow, evaluateComparison]
    rcases h with ⟨hl, hr⟩ | ⟨hl, hr⟩
    · rw [hl]
      cases hrr : extractValueDouble r buf i <;> simp_all
    · rw [hr]
      cases hll : extractValueDouble l buf i <;> simp_all

theorem C2_compare_row_semantics_witness :
    evaluateRow
        (.compare .LESS .INT64 (.constant .INT64 (.intV 3)) (.constant .INT64 (.intV 5)))
        ⟨[], 1⟩ 0 = some .TRUE ∧
      evaluateRow
        (.compare .LESS .INT64 (.constant .NULL_CONST .uninit) (.constant .INT64 (.intV 5)))
        ⟨[], 1⟩ 0 = some .NULL_VALUE := by
  constructor
  · have h := C2_compare_row_semantics.2.1 .LESS
      (.constant .INT64 (.intV 3)) (.constant .INT64 (.intV 5)) ⟨[], 1⟩ 0 3 5
      (Or.inr (Or.inr (Or.inr (Or.inl rfl)))) (by rfl) (by rfl)
    exact h.trans (by rfl)
  · exact C2_compare_row_semantics.2.2.1 .LESS
      (.constant .NULL_CONST .uninit) (.constant .INT64 (.intV 5)) ⟨[], 1⟩ 0
      (Or.inl ⟨by rfl, by decide⟩)

end ToyDB

namespace ToyDB

/-- C3 (code bug): `initializeIndexMap` is the identity on every predicate tree:
`ColumnRefExpr::initializeIndexMap` is a no-op, so no `ColumnRef` ever receives
an index (all stay at `-1`), every node's `columnIndexMap_` stays empty, and
the counter is never advanced. In particular, for the single-column predicate
`col0 > 25` the map is empty although one distinct ColumnId is referenced and
the `ColumnRef` still carries index `-1`. -/
theorem C3_initializeIndexMap_noop :
    (∀ (e : EExpr) (n : Int), initializeIndexMap e n = (e, [], n)) ∧
    initializeIndexMap
        (.compare .GREATER .INT64
          (.columnRef { id := 0, name := "col0" } (-1))
          (.constant .INT64 (.intV 25))) 0
      = (.compare .GREATER .INT64
          (.columnRef { id := 0, name := "col0" } (-1))
          (.constant .INT64 (.intV 25)), [], 0) := by
  have hall : ∀ (e : EExpr) (n : Int), initializeIndexMap e n = (e, [], n) := by
    intro e
    induction e with
    | columnRef cid idx => intro n; rfl
    | constant ty v => intro n; rfl
    | compare op ty l r ihl ihr =>
      intro n
      simp [initializeIndexMap, ihl, ihr, mergeIndexMaps]
    | logical op l r ihl ihr =>
      intro n
      simp [initializeIndexMap, ihl, ihr, mergeIndexMaps]
  exact ⟨hall, hall _ 0⟩

end ToyDB

namespace ToyDB

/-! ## engine/physical_operator.hpp — ColumnBuffer -/

/-- `ColumnBuffer` from physical_operator.hpp (the fields touched by
`writeEntry`/`NullBitmap`): the typed data region is a total function on slots
(every legal access is below `capacity`), the null bitmap stores one bit per
row (`true` = valid) behind an optional pointer (`none` = no bitmap). -/
structure ColumnBuffer (α : Type) where
  columnId : ColumnId
  type : DataType
  count : Nat
  data : Nat → α
  nullBitmap : Option (Nat → Bool)
  capacity : Nat

/-- `NullBitmap::isNull` via `ColumnBuffer::isNull`: false when no bitmap. -/
def ColumnBuffer.isNull (c : ColumnBuffer α) (i : Nat) : Bool :=
  match c.nullBitmap with
  | none => false
  | some f => !(f i)

/-- `NullBitmap::setNull` via `ColumnBuffer::setNull`: clears the valid bit;
no-op without a bitmap. -/
def ColumnBuffer.setNull (c : ColumnBuffer α) (i : Nat) : ColumnBuffer α :=
  match c.nullBitmap with
  | none => c
  | some f => { c with nullBitmap := some (Function.update f i false) }

/-- `NullBitmap::clearNull` via `ColumnBuffer::clearNull`: sets the valid bit;
no-op without a bitmap. -/
def ColumnBuffer.clearNull (c : ColumnBuffer α) (i : Nat) : ColumnBuffer α :=
  match c.nullBitmap with
  | none => c
  | some f => { c with nullBitmap := some (Function.update f i true) }

/-- `ColumnBuffer::writeEntry<T>` (physical_operator.hpp:131-146). `expected`
is `getDataTypeFor<T>()`; `none` models a failed `tdb_assert`. The body writes
the value and advances `count`; it does not touch the null bitmap. -/
def ColumnBuffer.writeEntry (c : ColumnBuffer α) (expected : DataType) (i : Nat)
    (v : α) : Option (ColumnBuffer α) :=
  if c.type ≠ expected then none
  else if i < c.capacity then
    some { c with data := Function.update c.data i v,
                  count := if i ≥ c.count then i + 1 else c.count }
  else none

/-- A concrete INT64 column of capacity 4 with an attached bitmap whose every
row is currently null. -/
def sampleNullColumn : ColumnBuffer Int :=
  { columnId := { id := 0, name := "c0" }, type := .INT64, count := 0,
    data := fun _ => 0, nullBitmap := some (fun _ => false), capacity := 4 }

/-- C5 (counterexample): writing slot 0 of a column whose attached bitmap marks
row 0 as null leaves `is_null(0)` true — `writeEntry` does not clear the null
bit, contrary to the claim. -/
theorem C5_writeEntry_counterexample :
    (sampleNullColumn.writeEntry .INT64 0 5).map (fun c => c.isNull 0) = some true := by
  rfl

/-- C5 (amended): under the preconditions (matching type, `i < capacity`),
`writeEntry(i, v)` writes `v` at slot `i`, advances `count` to
`max(count, i+1)`, leaves every other slot unchanged — and leaves the null
bitmap entirely unchanged (callers such as the CSV reader must call
`clearNull` themselves). -/
theorem C5_writeEntry_behavior {α : Type} (c : ColumnBuffer α) (expected : DataType)
    (i : Nat) (v : α) (hty : c.type = expected) (hcap : i < c.capacity) :
    ∃ c', c.writeEntry expected i v = some c' ∧
      c'.data i = v ∧
      (∀ j, j ≠ i → c'.data j = c.data j) ∧
      c'.count = max c.count (i + 1) ∧
      c'.nullBitmap = c.nullBitmap ∧
      c'.type = c.type ∧ c'.capacity = c.capacity := by
  refine ⟨{ c with data := Function.update c.data i v, count := if i ≥ c.count then i + 1 else c.count }, ?_, ?_, ?_, ?_, rfl, rfl, rfl⟩
  · unfold ColumnBuffer.writeEntry
    rw [if_neg (by simp [hty]), if_pos hcap]
  · exact Function.update_same i v c.data
  · intro j hj
    exact Function.update_noteq hj v c.data
  · show (if i ≥ c.count then i + 1 else c.count) = max c.count (i + 1)
    split <;> omega

theorem C5_writeEntry_behavior_witness :
    ∃ c', sampleNullColumn.writeEntry .INT64 2 7 = some c' ∧
      c'.data 2 = 7 ∧
      (∀ j, j ≠ 2 → c'.data j = sampleNullColumn.data j) ∧
      c'.count = max sampleNullColumn.count (2 + 1) ∧
      c'.nullBitmap = sampleNullColumn.nullBitmap ∧
      c'.type = sampleNullColumn.type ∧ c'.capacity = sampleNullColumn.capacity := by
  have h := C5_writeEntry_behavior sampleNullColumn .INT64 2 7 (by rfl) (by decide)
  obtain ⟨c', h1, h2, h3, h4, h5, h6, h7⟩ := h
  exact ⟨c', h1, h2, h3, h4, h5, h6, h7⟩

end ToyDB

namespace ToyDB

/-! ## storage/csv_data_file_reader.cpp -/

/-- Character loop of `CsvDataFileReader::parseCSVLine` (separator `,`):
quotes toggle `inQuotes`, separators outside quotes split, everything else is
accumulated; the final field is always pushed. -/
def parseCSVLineGo : List Char → String → Bool → List String
  | [], field, _ => [field]
  | c :: cs, field, inQuotes =>
    if c = '"' then parseCSVLineGo cs field (!inQuotes)
    else if c = ',' ∧ ¬inQuotes then field :: parseCSVLineGo cs "" inQuotes
    else parseCSVLineGo cs (field.push c) inQuotes

/-- `CsvDataFileReader::parseCSVLine`. -/
def parseCSVLine (line : String) : List String :=
  parseCSVLineGo line.toList "" false

/-- `parseAndWriteValue<T>` (csv_data_file_reader.cpp:56-82), generic over the
parsed value type: an empty field or the literals `NULL`/`null` set the null
bit and return without writing; otherwise the null bit is cleared and the
parsed value written (`none` models a parse exception / failed assert). -/
def parseAndWriteValue {α : Type} (parse : String → Option α) (expected : DataType)
    (valueStr : String) (c : ColumnBuffer α) (i : Nat) : Option (ColumnBuffer α) :=
  if valueStr = "" ∨ valueStr = "NULL" ∨ valueStr = "null" then some (c.setNull i)
  else
    let c1 := c.clearNull i
    match parse valueStr with
    | some v => c1.writeEntry expected i v
    | none => none

/-- The data-line loop of `CsvDataFileReader::readBatch`
(csv_data_file_reader.cpp:125-166), abstracted to the fields it parses: empty
lines are skipped, a line whose field count differs from the schema length is
skipped, a matching line contributes its parsed fields as one row; the loop
stops after `requested` rows or at end of input. Returns the accepted rows and
the unread remainder. -/
def readRows (n : Nat) : Nat → List String → List (List String) × List String
  | 0, ls => ([], ls)
  | _ + 1, [] => ([], [])
  | k + 1, l :: ls =>
    if l = "" then readRows n (k + 1) ls
    else if (parseCSVLine l).length = n then
      let res := readRows n k ls
      (parseCSVLine l :: res.1, res.2)
    else readRows n (k + 1) ls

/-- Specification-side reading: the parsed rows of exactly the non-empty lines
whose field count matches the schema length. -/
def goodRows (n : Nat) (lines : List String) : List (List String) :=
  (lines.filter (fun l => !(l == "") && ((parseCSVLine l).length == n))).map parseCSVLine

theorem readRows_spec (n : Nat) :
    ∀ (lines : List String) (k : Nat),
      (readRows n k lines).1 = (goodRows n lines).take k ∧
        (readRows n k lines).1 ++ goodRows n (readRows n k lines).2 = goodRows n lines := by
  intro lines
  induction lines with
  | nil =>
    intro k
    cases k <;> simp [readRows, goodRows]
  | cons l ls ih =>
    intro k
    cases k with
    | zero => simp [readRows, goodRows]
    | succ k =>
      by_cases hl : l = ""
      · subst hl
        have hg : goodRows n ("" :: ls) = goodRows n ls := by simp [goodRows]
        simp only [readRows, if_pos rfl, hg]
        exact ih (k + 1)
      · by_cases hlen : (parseCSVLine l).length = n
        · have hg : goodRows n (l :: ls) = parseCSVLine l :: goodRows n ls := by
            simp [goodRows, hl, hlen]
          simp only [readRows, if_neg hl, if_pos hlen, hg]
          refine ⟨?_, ?_⟩
          · simp [List.take_succ_cons, (ih k).1]
          · simp [(ih k).2]
        · have hg : goodRows n (l :: ls) = goodRows n ls := by
            simp [goodRows, hl, hlen]
          simp only [readRows, if_neg hl, if_neg hlen, hg]
          exact ih (k + 1)

/-- C8: in the `readBatch` data-line loop, a line whose field count differs from
the schema's column count contributes no row (it is skipped and reading
continues with the following line): the rows produced by one call are exactly
the first `requested` matching rows of the input, the unread remainder
accounts for all remaining matching rows, and the returned row count counts
matching lines only. -/
theorem C8_csv_skip_mismatched_lines (n : Nat) (lines : List String) (k : Nat) :
    (readRows n k lines).1 = (goodRows n lines).take k ∧
      (readRows n k lines).1 ++ goodRows n (readRows n k lines).2 = goodRows n lines ∧
      ((readRows n k lines).1).length = min k (goodRows n lines).length := by
  obtain ⟨h1, h2⟩ := readRows_spec n lines k
  refine ⟨h1, h2, ?_⟩
  rw [h1, List.length_take]

end ToyDB

namespace ToyDB

/-- C10: in CSV parsing, an empty field is stored as NULL exactly like the
literals `NULL` and `null`, for every column type (the check precedes the
per-type dispatch): the null bit is set, and neither the data region nor the
row count is touched. -/
theorem C10_empty_field_is_null {α : Type} (parse : String → Option α)
    (expected : DataType) (c : ColumnBuffer α) (i : Nat) (s : String)
    (hs : s = "" ∨ s = "NULL" ∨ s = "null") :
    parseAndWriteValue parse expected s c i = some (c.setNull i) ∧
      (c.setNull i).data = c.data ∧
      (c.setNull i).count = c.count ∧
      (∀ f, c.nullBitmap = some f → (c.setNull i).isNull i = true) := by
  refine ⟨?_, ?_, ?_, ?_⟩
  · unfold parseAndWriteValue
    rw [if_pos hs]
  · unfold ColumnBuffer.setNull
    rcases hnb : c.nullBitmap with _ | f <;> simp [hnb]
  · unfold ColumnBuffer.setNull
    rcases hnb : c.nullBitmap with _ | f <;> simp [hnb]
  · intro f hf
    simp [ColumnBuffer.setNull, hf, ColumnBuffer.isNull, Function.update_same]

theorem C10_empty_field_is_null_witness :
    parseAndWriteValue (fun _ => (none : Option Int)) .INT64 "" sampleNullColumn 0
        = some (sampleNullColumn.setNull 0) ∧
      (sampleNullColumn.setNull 0).isNull 0 = true := by
  have h := C10_empty_field_is_null (fun _ => (none : Option Int)) .INT64
    sampleNullColumn 0 "" (Or.inl rfl)
  exact ⟨h.1, h.2.2.2 _ rfl⟩

/-! ## engine/nested_loop_join.hpp -/

/-- `NestedLoopJoinExec::materializeBuildInput` (nested_loop_join.hpp:72-98):
drain the build operator until a `next` call returns 0. A child operator is
modelled by the list of row counts its successive `next` calls return. -/
def materializeBuildInput (buildBatches : List Int) : List Int :=
  buildBatches.takeWhile (fun c => c != 0)

/-- The probe loop `while (rightCount > 0) { }` of `NestedLoopJoinExec::next`
(nested_loop_join.hpp:59-61) with explicit fuel; the body is empty (the join
logic is a TODO), so `rightCount` never changes. On exit the function returns
`totalOutputRows`, still 0. `none`: the fuel ran out with the loop still
spinning. -/
def nljProbeLoop (rightCount : Int) : Nat → Option Int
  | 0 => none
  | fuel + 1 => if rightCount > 0 then nljProbeLoop rightCount fuel else some 0

/-- `NestedLoopJoinExec::next` (nested_loop_join.hpp:42-65): materialize the
build side, take the probe's first batch row count, then run the (empty) probe
loop. -/
def nljNext (buildBatches probeBatches : List Int) (fuel : Nat) : Option Int :=
  let _materializedLeft := materializeBuildInput buildBatches
  let rightCount := probeBatches.headD 0
  nljProbeLoop rightCount fuel

theorem nljProbeLoop_pos (c : Int) (h : 0 < c) : ∀ fuel, nljProbeLoop c fuel = none
  | 0 => rfl
  | fuel + 1 => by
    unfold nljProbeLoop
    rw [if_pos h]
    exact nljProbeLoop_pos c h fuel

/-- C1 (code bug): `NestedLoopJoinExec::next` never produces any join output.
With a non-empty probe input the empty `while (rightCount > 0)` loop never
terminates (for every fuel bound the loop is still running), and with an empty
probe input it returns 0 rows — never `|A| × |B|`. -/
theorem C1_nested_loop_join_unimplemented :
    (∀ (build probe : List Int) (fuel : Nat), 0 < probe.headD 0 →
      nljNext build probe fuel = none) ∧
    (∀ (build probe : List Int) (fuel : Nat), probe.headD 0 ≤ 0 →
      nljNext build probe (fuel + 1) = some 0) := by
  constructor
  · intro build probe fuel h
    unfold nljNext
    exact nljProbeLoop_pos _ h fuel
  · intro build probe fuel h
    unfold nljNext nljProbeLoop
    rw [if_neg (by omega)]

theorem C1_nested_loop_join_unimplemented_witness :
    nljNext [3] [3] 9 = none ∧ nljNext [3] [] 9 = some 0 :=
  ⟨C1_nested_loop_join_unimplemented.1 [3] [3] 9 (by decide),
    C1_nested_loop_join_unimplemented.2 [3] [] 8 (by decide)⟩

end ToyDB

namespace ToyDB

/-! ## planner/interpreter.cpp -/

/-- The exception kinds of common/errors.hpp thrown by the interpreter (there
is no dedicated ambiguous-column exception class; ambiguity is reported
through `UnresolvedColumnException`), plus the plain `std::runtime_error` used
by the unimplemented statement handlers. -/
inductive SQLError where
  | unresolvedColumn (msg : String)
  | internalSQL (msg : String)
  | notYetImplemented (feature : String)
  | runtimeError (msg : String)
deriving DecidableEq, Repr

/-- `ast::ColumnRef` as constructed by parser.cpp and consumed by
interpreter.cpp (its declaration is absent from the sources). Modelled from the
spec: a possibly table-qualified column name. An empty `table` means
unqualified. -/
structure AstColumnRef where
  table : String
  name : String
  aliasName : String := ""
deriving DecidableEq, Repr

/-- `ast::Table`. -/
structure AstTable where
  name : String
  aliasName : String := ""
deriving DecidableEq, Repr

/-- `ast::Expression` as consumed by `SQLInterpreter::lowerPredicate` (the
constant variants of query_ast.hpp, column references, and `ast::Condition`
whose `isUnop()` is `right == nullptr`). -/
inductive AstExpr where
  | columnRef (c : AstColumnRef)
  | constInt (v : Int) (isInt64 : Bool)
  | constDouble (v : ℚ)
  | constString (s : String)
  | constNull
  | constBool (b : Bool)
  | condition (op : CompareOp) (left : AstExpr) (right : Option AstExpr)

/-- `ast::SelectFrom` as consumed by `SQLInterpreter::handleSelectFrom`.
Modelled from the spec where query_ast.hpp disagrees with the interpreter
(the interpreter reads a `selectAll` flag and qualified select-list columns). -/
structure SelectFromAst where
  columns : List AstColumnRef
  tables : List AstTable
  whereClause : Option AstExpr
  selectAll : Bool

/-- `ColumnMetadata` from storage/catalog.hpp. -/
structure ColumnMetadata where
  name : String
  type : DataType
  nullable : Bool := true
deriving DecidableEq, Repr

/-- `Schema::getColumnByName`: search the column metadata by name (the C++
iterates an unordered map; per-table column names are unique here). -/
def schemaGetColumnByName (s : List (ColumnId × ColumnMetadata)) (n : String) :
    Option ColumnMetadata :=
  (s.find? (fun p => p.2.name == n)).map (·.2)

/-- `Schema::getColumnIds`: the schema's column ids in declaration order. -/
def schemaGetColumnIds (s : List (ColumnId × ColumnMetadata)) : List ColumnId :=
  s.map (·.1)

/-- `TableMeta` as consumed by the interpreter (name plus schema; its
declaration is absent from the sources — modelled from the spec's table
metadata: ordered columns with types). -/
structure TableMeta where
  name : String
  schema : List (ColumnId × ColumnMetadata)
deriving DecidableEq, Repr

/-- The `PlaceholderCatalog` interface of planner/interpreter.hpp. -/
structure PlaceholderCatalog where
  getTable : String → Option TableMeta
  resolveColumn : String → String → Option ColumnId
  getColumnType : ColumnId → Option DataType

/-- `QueryContext` from planner/interpreter.hpp. The two unordered maps are
modelled as association lists in insertion order (iteration order of the C++
maps is unspecified; only the error-message table list depends on it). -/
structure QueryContext where
  aliasToTable : List (String × String)
  tables : List (String × TableMeta)
deriving DecidableEq, Repr

/-- `QueryContext::getCanonicalTableName`. -/
def QueryContext.getCanonicalTableName (ctx : QueryContext) (t : String) :
    Option String :=
  match ctx.aliasToTable.find? (fun p => p.1 == t) with
  | some p => some p.2
  | none => if ctx.tables.any (fun p => p.1 == t) then some t else none

/-- `std::map`-style keyed insert (`m[k] = v`). -/
def assocInsert {β : Type} (m : List (String × β)) (k : String) (v : β) :
    List (String × β) :=
  if m.any (fun p => p.1 == k) then
    m.map (fun p => if p.1 == k then (k, v) else p)
  else m ++ [(k, v)]

/-- `buildSelectContext` (interpreter.cpp:10-35). -/
def buildSelectContext (tables : List AstTable) (catalog : PlaceholderCatalog) :
    Except SQLError QueryContext :=
  tables.foldlM
    (fun ctx t =>
      match catalog.getTable t.name with
      | none => throw (.unresolvedColumn ("Table '" ++ t.name ++ "' not found"))
      | some meta =>
        let ctx := { ctx with tables := assocInsert ctx.tables t.name meta }
        if t.aliasName ≠ "" then
          if ctx.aliasToTable.any (fun p => p.1 == t.aliasName) then
            throw (.internalSQL ("Duplicate alias '" ++ t.aliasName ++ "'"))
          else pure { ctx with aliasToTable := ctx.aliasToTable ++ [(t.aliasName, t.name)] }
        else pure ctx)
    ⟨[], []⟩

/-- `SQLInterpreter::resolveColumnRef` (interpreter.cpp:37-86). -/
def resolveColumnRef (catalog : PlaceholderCatalog) (columnRef : AstColumnRef)
    (ctx : QueryContext) : Except SQLError ColumnId :=
  if columnRef.table ≠ "" then
    match ctx.getCanonicalTableName columnRef.table with
    | none =>
      throw (.unresolvedColumn ("Table or alias '" ++ columnRef.table ++ "' not found"))
    | some actual =>
      match catalog.resolveColumn actual columnRef.name with
      | none =>
        throw (.unresolvedColumn
          ("Column '" ++ columnRef.name ++ "' not found in table '" ++ actual ++ "'"))
      | some cid => pure cid
  else
    let matching :=
      (ctx.tables.filter
        (fun p => (schemaGetColumnByName p.2.schema columnRef.name).isSome)).map (·.1)
    if matching.isEmpty then
      throw (.unresolvedColumn
        ("Column '" ++ columnRef.name ++ "' not found in any available table"))
    else if matching.length > 1 then
      throw (.unresolvedColumn
        ("Column '" ++ columnRef.name ++ "' is ambiguous: found in tables "
          ++ String.intercalate ", " matching))
    else
      match catalog.resolveColumn (matching.headD "") columnRef.name with
      | none =>
        throw (.unresolvedColumn
          ("Column '" ++ columnRef.name ++ "' not found in table '"
            ++ matching.headD "" ++ "'"))
      | some cid => pure cid

/-- Predicate expression nodes built by the interpreter. The `CastExpr` class
and the typed two-argument `ColumnRefExpr` constructor that interpreter.cpp
instantiates are absent from the sources — modelled from the spec:
`Cast(target_type, child)` and `ColumnRef(column_id, type, index)`. Constant
values reuse `ConstVal`. -/
inductive PlanExpr where
  | columnRef (cid : ColumnId) (ty : DataType)
  | constant (ty : DataType) (v : ConstVal)
  | cast (ty : DataType) (e : PlanExpr)
  | compare (op : CompareOp) (ty : DataType) (l r : PlanExpr)
  | logical (op : CompareOp) (l r : PlanExpr)
deriving DecidableEq, Repr

/-- `SQLInterpreter::lowerConstant` (interpreter.cpp:88-104); the parser emits
`ConstantInt` with `isInt64 = false` for literals in int32 range. -/
def lowerConstant : AstExpr → Except SQLError PlanExpr
  | .constInt v isInt64 =>
    pure (.constant (if isInt64 then .INT64 else .INT32) (.intV v))
  | .constDouble v => pure (.constant .DOUBLE (.doubleV v))
  | .constString s => pure (.constant .STRING (.stringV s))
  | .constNull => pure (.constant .NULL_CONST .uninit)
  | .constBool b => pure (.constant .BOOL (.boolV b))
  | _ => throw (.internalSQL "Unknown constant type")

/-- `getCommonType` (interpreter.cpp:133-151), branch for branch. -/
def getCommonType (left right : DataType) : Except SQLError DataType :=
  if left = right then pure left
  else if left = .INT32 ∧ right = .INT64 then pure .INT64
  else if left = .INT64 ∧ right = .INT32 then pure .INT64
  else if left.isIntegral ∧ right = .DOUBLE then pure .DOUBLE
  else if left = .DOUBLE ∧ right.isIntegral then pure .DOUBLE
  else if left = .BOOL ∧ right.isIntegral then pure right
  else if left.isIntegral ∧ right = .BOOL then pure left
  else throw (.internalSQL "Unsupported operand types for binary operation")

/-- The dynamic-cast chain of lowerCondition extracting an operand's type
(interpreter.cpp:170-187): only column references and constants qualify. -/
def operandType (side : String) : PlanExpr → Except SQLError DataType
  | .columnRef _ ty => pure ty
  | .constant ty _ => pure ty
  | _ => throw (.internalSQL (side ++ " operand must be a column reference or a constant"))

/-- `SQLInterpreter::lowerPredicate` with `lowerCondition`
(interpreter.cpp:107-202) fused into the `condition` cases (the C++ splits
them into two mutually calling functions). A `Condition` with no right operand
is `isUnop()`. -/
def lowerPredicate (catalog : PlaceholderCatalog) (ctx : QueryContext) :
    AstExpr → Except SQLError PlanExpr
  | .columnRef c => do
    let cid ← resolveColumnRef catalog c ctx
    match catalog.getColumnType cid with
    | some ty => pure (.columnRef cid ty)
    | none => throw (.internalSQL "column type lookup failed")
  | .constString s =>
    throw (.unresolvedColumn ("Unexpected string literal in predicate: " ++ s))
  | .condition _ _ none => throw (.notYetImplemented "unary operator")
  | .condition op l (some r) => do
    let left ← lowerPredicate catalog ctx l
    let right ← lowerPredicate catalog ctx r
    if op = .AND ∨ op = .OR then
      pure (.logical op left right)
    else do
      let leftType ← operandType "Left" left
      let rightType ← operandType "Right" right
      let compareType ← getCommonType leftType rightType
      let left := if leftType ≠ compareType then .cast compareType left else left
      let right := if rightType ≠ compareType then .cast compareType right else right
      pure (.compare op compareType left right)
  | e => lowerConstant e

/-- Logical plan operators produced by `handleSelectFrom`
(planner/logical_operator.hpp: `TableScanOp`, `FilterOp`, `ProjectionOp`,
each child-linked). -/
inductive LogicalOp where
  | tableScan (columns : List ColumnId)
  | filter (predicate : PlanExpr) (child : LogicalOp)
  | projection (columns : List ColumnId) (child : LogicalOp)
deriving DecidableEq, Repr

/-- `SQLInterpreter::handleSelectFrom` (interpreter.cpp:235-294). -/
def handleSelectFrom (catalog : PlaceholderCatalog) (sf : SelectFromAst) :
    Except SQLError LogicalOp := do
  if sf.tables.isEmpty then
    throw (.internalSQL "SELECT query must have at least one table")
  else if sf.tables.length > 1 then
    throw (.notYetImplemented "Multiple tables (joins)")
  else do
    let ctx ← buildSelectContext sf.tables catalog
    let scanColumns := (ctx.tables.map (fun p => schemaGetColumnIds p.2.schema)).flatten
    let tableScanOp := LogicalOp.tableScan scanColumns
    let current ← match sf.whereClause with
      | some w => do
        let pred ← lowerPredicate catalog ctx w
        pure (LogicalOp.filter pred tableScanOp)
      | none => pure tableScanOp
    if sf.selectAll then
      pure current
    else do
      let projCols ← sf.columns.mapM (fun c => resolveColumnRef catalog c ctx)
      pure (.projection projCols current)

/-- The statement alternatives `SQLInterpreter::interpret` dispatches on. -/
inductive QueryAst where
  | selectFrom (sf : SelectFromAst)
  | createTable
  | insert
  | update
  | delete

/-- `SQLInterpreter::interpret` (interpreter.cpp:204-233): dispatch to the
statement handler; exceptions are logged and rethrown unchanged. -/
def interpret (catalog : PlaceholderCatalog) : QueryAst → Except SQLError LogicalOp
  | .selectFrom sf => handleSelectFrom catalog sf
  | .createTable => throw (.runtimeError "CREATE TABLE not yet implemented")
  | .insert => throw (.runtimeError "INSERT not yet implemented")
  | .update => throw (.runtimeError "UPDATE not yet implemented")
  | .delete => throw (.runtimeError "DELETE not yet implemented")

end ToyDB

namespace ToyDB

/-- The `users` table of the interpreter tests: `id INT64, name STRING,
age INT32` (column ids assigned 1, 2, 3). -/
def usersTid : TableId := ⟨1, "users"⟩
def usersIdCol : ColumnId := ⟨1, "id", usersTid⟩
def usersNameCol : ColumnId := ⟨2, "name", usersTid⟩
def usersAgeCol : ColumnId := ⟨3, "age", usersTid⟩
def usersMeta : TableMeta :=
  ⟨"users", [(usersIdCol, ⟨"id", .INT64, true⟩), (usersNameCol, ⟨"name", .STRING, true⟩),
    (usersAgeCol, ⟨"age", .INT32, true⟩)]⟩

/-- A `users` variant whose `id` column is INT32 (no cast needed on `id = 1`). -/
def users32Meta : TableMeta := ⟨"users", [(usersIdCol, ⟨"id", .INT32, true⟩)]⟩

/-- A `users` variant whose `id` column is DOUBLE (cast needed on the constant). -/
def usersDblMeta : TableMeta := ⟨"users", [(usersIdCol, ⟨"id", .DOUBLE, true⟩)]⟩

/-- The `orders` table: `id INT32, amount DOUBLE` (column ids 4, 5). -/
def ordersTid : TableId := ⟨2, "orders"⟩
def ordersIdCol : ColumnId := ⟨4, "id", ordersTid⟩
def ordersAmountCol : ColumnId := ⟨5, "amount", ordersTid⟩
def ordersMeta : TableMeta :=
  ⟨"orders", [(ordersIdCol, ⟨"id", .INT32, true⟩), (ordersAmountCol, ⟨"amount", .DOUBLE, true⟩)]⟩

/-- A consistent `PlaceholderCatalog` over a list of tables. -/
def catalogOf (tables : List TableMeta) : PlaceholderCatalog where
  getTable := fun n => tables.find? (fun t => t.name == n)
  resolveColumn := fun tn cn => do
    let t ← tables.find? (fun t => t.name == tn)
    let p ← t.schema.find? (fun p => p.2.name == cn)
    pure p.1
  getColumnType := fun cid => do
    let t ← tables.find? (fun t => t.schema.any (fun p => p.1.sameId cid))
    let p ← t.schema.find? (fun p => p.1.sameId cid)
    pure p.2.type

/-- The AST of `SELECT id FROM users WHERE id = 1` (the literal `1` lexes to an
Int32 token, so the parser emits `ConstantInt(1, false)`). -/
def selectIdWhereId1 : SelectFromAst :=
  { columns := [{ table := "", name := "id" }],
    tables := [{ name := "users" }],
    whereClause := some (.condition .EQUAL (.columnRef { table := "", name := "id" })
      (some (.constInt 1 false))),
    selectAll := false }

/-- The AST of `SELECT id FROM users, orders`. -/
def selectUnqualifiedIdTwoTables : SelectFromAst :=
  { columns := [{ table := "", name := "id" }],
    tables := [{ name := "users" }, { name := "orders" }],
    whereClause := none,
    selectAll := false }

/-- The AST of `SELECT users.id FROM users, orders`. -/
def selectQualifiedIdTwoTables : SelectFromAst :=
  { columns := [{ table := "users", name := "id" }],
    tables := [{ name := "users" }, { name := "orders" }],
    whereClause := none,
    selectAll := false }

/-- The two-table context `{users, orders}` that `buildSelectContext` yields. -/
def multiTableCtx : QueryContext :=
  ⟨[], [("users", usersMeta), ("orders", ordersMeta)]⟩

end ToyDB

namespace ToyDB

/-- C6: lowering `SELECT id FROM users WHERE id = 1` (with `users.id : INT64`)
yields `Projection([users.id])` over
`Filter(Compare(EQUAL, INT64, ColumnRef(users.id), Cast(INT64, Const_INT32(1))))`
over a TableScan of all of `users`' columns. The second and third conjuncts
show the cast is inserted on exactly each operand whose type differs from the
lattice common type: with `id : INT32` both sides already match (no cast, the
Compare's operand type is INT32); with `id : DOUBLE` only the INT32 constant
is cast to DOUBLE. -/
theorem C6_select_where_lowering :
    interpret (catalogOf [usersMeta]) (.selectFrom selectIdWhereId1)
      = .ok (.projection [usersIdCol]
          (.filter
            (.compare .EQUAL .INT64 (.columnRef usersIdCol .INT64)
              (.cast .INT64 (.constant .INT32 (.intV 1))))
            (.tableScan [usersIdCol, usersNameCol, usersAgeCol]))) ∧
    interpret (catalogOf [users32Meta]) (.selectFrom selectIdWhereId1)
      = .ok (.projection [usersIdCol]
          (.filter
            (.compare .EQUAL .INT32 (.columnRef usersIdCol .INT32)
              (.constant .INT32 (.intV 1)))
            (.tableScan [usersIdCol]))) ∧
    interpret (catalogOf [usersDblMeta]) (.selectFrom selectIdWhereId1)
      = .ok (.projection [usersIdCol]
          (.filter
            (.compare .EQUAL .DOUBLE (.columnRef usersIdCol .DOUBLE)
              (.cast .DOUBLE (.constant .INT32 (.intV 1))))
            (.tableScan [usersIdCol]))) := by
  refine ⟨?_, ?_, ?_⟩ <;> rfl

/-- C7 (counterexample): with the two-table catalog, `SELECT users.id FROM
users, orders` does not resolve — `handleSelectFrom` rejects every multi-table
statement with `NotYetImplemented("Multiple tables (joins)")` before any name
resolution; the unqualified `SELECT id FROM users, orders` fails with the same
NotYetImplemented kind, not an ambiguous-column resolution error. -/
theorem C7_multi_table_counterexample :
    interpret (catalogOf [usersMeta, ordersMeta]) (.selectFrom selectQualifiedIdTwoTables)
        = .error (.notYetImplemented "Multiple tables (joins)") ∧
      interpret (catalogOf [usersMeta, ordersMeta]) (.selectFrom selectUnqualifiedIdTwoTables)
        = .error (.notYetImplemented "Multiple tables (joins)") :=
  ⟨rfl, rfl⟩

/-- C7 (amended): both statements fail during interpretation with
`NotYetImplemented` (multi-table SELECT is unimplemented). At the
name-resolution level, against the context holding both tables, the
unqualified `id` raises the ambiguity error (an `UnresolvedColumnException`
naming both tables — there is no dedicated AmbiguousColumn exception class)
while the qualified `users.id` resolves to `users`' id column. (The table
list in the message follows this model's insertion order; the C++ iterates an
unordered map, so only the kind and the ambiguity text are significant.) -/
theorem C7_ambiguity_via_resolver :
    interpret (catalogOf [usersMeta, ordersMeta]) (.selectFrom selectUnqualifiedIdTwoTables)
        = .error (.notYetImplemented "Multiple tables (joins)") ∧
      interpret (catalogOf [usersMeta, ordersMeta]) (.selectFrom selectQualifiedIdTwoTables)
        = .error (.notYetImplemented "Multiple tables (joins)") ∧
      buildSelectContext [{ name := "users" }, { name := "orders" }]
          (catalogOf [usersMeta, ordersMeta]) = .ok multiTableCtx ∧
      resolveColumnRef (catalogOf [usersMeta, ordersMeta])
          { table := "", name := "id" } multiTableCtx
        = .error (.unresolvedColumn
            "Column 'id' is ambiguous: found in tables users, orders") ∧
      resolveColumnRef (catalogOf [usersMeta, ordersMeta])
          { table := "users", name := "id" } multiTableCtx
        = .ok usersIdCol :=
  ⟨rfl, rfl, rfl, rfl, rfl⟩

end ToyDB
